import Mathlib

/-!
# Verification of the jira-mcp identifier-resolution and batch-operation layer

Shallow embedding of the decision logic of the `jira-mcp` repository:

* `src/utils.py` — `find_project_by_identifier`, `find_issue_by_summary`,
  `log_work_for_issue`, `resolve_issue_identifier`, `validate_project_access`;
* `src/infrastructure/jira_client.py` — `JiraClientService.find_project`,
  `JiraClientService.find_issue_by_summary`;
* `src/core/validators.py` — `validate_time_format`;
* `src/core/validation_service.py` — `ValidationService.validate_time_format`;
* `src/domain/services/worklog_service.py` — `WorklogService._parse_work_date`,
  `WorklogService.add_worklog_to_issue`, `WorklogService.resolve_issue_identifier`;
* `src/tools/batch_log_work.py` — `batch_log_work_func`;
* `src/tools/batch_create_issues.py` — `batch_create_issues_func`;
* `src/tools/log_work_on_issue.py` — `log_work_on_issue_func`.

The external tracker (Jira REST API, via the `jira` Python package) and the
external parsing libraries (`dateparser`, `dateutil`) are modelled as oracle
parameters: each embedded operation receives the observable answers of those
collaborators as explicit function arguments and records the external write
calls it issues as an explicit trace.

Python `str.lower` / `str.upper` are modelled character-wise over the Basic
Latin range (`Char.toLower` / `Char.toUpper`), which agrees with Python on
every ASCII string; all identifiers the claims quantify over are ASCII.
-/

/-! ## Strings: Python-style primitives -/

/-- Character-wise lowercase, the model of Python `str.lower` (ASCII range). -/
def pyLower (s : String) : String := ⟨s.data.map Char.toLower⟩

/-- Character-wise uppercase, the model of Python `str.upper` (ASCII range). -/
def pyUpper (s : String) : String := ⟨s.data.map Char.toUpper⟩

/-- Python `needle in hay` substring containment test. -/
def pyIn (needle hay : String) : Bool := decide (needle.data <:+: hay.data)

/-- Python whitespace class `\s` over the ASCII range. -/
def pyIsSpace (c : Char) : Bool :=
  c == ' ' || c == '\t' || c == '\n' || c == '\r' || c == '\x0b' || c == '\x0c'

/-- Python `str.strip()` (ASCII whitespace). -/
def pyStrip (s : String) : String :=
  ⟨((s.data.dropWhile pyIsSpace).reverse.dropWhile pyIsSpace).reverse⟩

/-! ## Data model: tracker candidates -/

/-- A project candidate as fetched from the tracker: key, name and an
optional description (`hasattr` probing in the source is modelled by
`Option`; Python truthiness of the description is an emptiness test). -/
structure Project where
  key : String
  name : String
  description : Option String
deriving DecidableEq, Repr

/-! ## `utils.find_project_by_identifier` (src/utils.py lines 14-58) -/

/-- The per-candidate match test of the loop body in
`find_project_by_identifier` (src/utils.py lines 34-44): exact key equality,
substring match on the name, and substring match on a present, non-empty
description, all against the lowercased query. -/
def projMatches (q : String) (p : Project) : Bool :=
  let key_match := pyLower p.key == q
  let name_match := pyIn q (pyLower p.name)
  let description_match :=
    match p.description with
    | some d => if d ≠ "" then pyIn q (pyLower d) else false
    | none => false
  key_match || name_match || description_match

/-- Embedding of `found_projects`, src/utils.py line 31-44 — src/utils.py line 31-44: the candidates matched by
key, name or description, in input order. -/
def foundProjects (projects : List Project) (identifier : String) : List Project :=
  projects.filter (projMatches (pyLower identifier))

/-- One step of building the Python dict `{p.key: p for p in ...}` in
insertion order: writing to an existing key replaces its value in place,
a new key is appended. -/
def dictInsert (m : List Project) (p : Project) : List Project :=
  if m.any (fun q => q.key == p.key) then
    m.map (fun q => if q.key == p.key then p else q)
  else m ++ [p]

/-- Embedding of `list({p.key: p for p in found_projects}.values())`, src/utils.py
line 47: one entry per distinct key, keys in order of first occurrence,
each entry being the last candidate carrying that key. -/
def dedupByKey (ps : List Project) : List Project := ps.foldl dictInsert []

/-- The `', '.flatten(...)` listing of src/utils.py line 52. -/
def projListStr (ps : List Project) : String :=
  String.intercalate ", " (ps.map (fun p => "'" ++ p.name ++ "' (" ++ p.key ++ ")"))

/-- The ambiguity message of src/utils.py line 53. -/
def ambiguousProjMsg (identifier : String) (ps : List Project) : String :=
  "Ambiguidade encontrada. O termo '" ++ identifier ++
    "' corresponde a múltiplos projetos: " ++ projListStr ps ++
    ". Por favor, seja mais específico ou use a chave do projeto."

/-- The not-found message of src/utils.py line 55. -/
def notFoundProjMsg (identifier : String) : String :=
  "Nenhum projeto encontrado com o identificador '" ++ identifier ++ "'."

/-- Embedding of `utils.find_project_by_identifier` over a fetched candidate list:
returns `(project_key, error_message)` exactly as the source does (one
distinct match resolves, several are ambiguous, none is not-found). -/
def find_project_by_identifier (projects : List Project) (identifier : String) :
    Option String × Option String :=
  let unique_projects := dedupByKey (foundProjects projects identifier)
  match unique_projects with
  | [p] => (some p.key, none)
  | [] => (none, some (notFoundProjMsg identifier))
  | ps => (none, some (ambiguousProjMsg identifier ps))

/-- Embedding of `utils.validate_project_access` (src/utils.py lines 171-188). -/
def validate_project_access (projects : List Project) (project_identifier : String) :
    Option String × Option String :=
  match find_project_by_identifier projects project_identifier with
  | (_, some e) => (none, some ("Erro ao encontrar o projeto: " ++ e))
  | (project_key, none) => (project_key, none)

/-! ## `JiraClientService.find_project` (src/infrastructure/jira_client.py
lines 109-150) -/

/-- The name/description test of the second loop of `find_project`
(jira_client.py lines 130-134); note this loop does not test the key. -/
def nameDescMatches (q : String) (p : Project) : Bool :=
  pyIn q (pyLower p.name) ||
    (match p.description with
     | some d => if d ≠ "" then pyIn q (pyLower d) else false
     | none => false)

/-- Embedding of `JiraClientService.find_project`: first an exact (case-insensitive) key
scan that returns immediately, then a name/description scan with the
one/many/none policy. -/
def find_project (projects : List Project) (identifier : String) :
    Option String × Option String :=
  let identifier_lower := pyLower identifier
  match projects.find? (fun p => pyLower p.key == identifier_lower) with
  | some p => (some p.key, none)
  | none =>
    let matched := projects.filter (nameDescMatches identifier_lower)
    match matched with
    | [p] => (some p.key, none)
    | [] => (none, some ("No project found for identifier '" ++ identifier ++ "'"))
    | ms => (none, some ("Multiple projects found for '" ++ identifier ++ "': " ++
        projListStr ms ++ ". Please be more specific."))

/-! ## Distinct-key counting (specification side, for the ambiguity count) -/

/-- First-occurrence deduplication of a key list: the mathematical "number
of distinct matched keys" used by the spec's ambiguity-count property. -/
def distinctKeys (ks : List String) : List String :=
  ks.foldl (fun acc k => if acc.any (fun x => x == k) then acc else acc ++ [k]) []

/-! ## ASCII character classes (codepoint view, for the regex embeddings) -/

/-- The class `[A-Z]`. -/
def isAsciiUpper (c : Char) : Bool := 65 ≤ c.toNat && c.toNat ≤ 90

/-- The class `[a-z]`. -/
def isAsciiLower (c : Char) : Bool := 97 ≤ c.toNat && c.toNat ≤ 122

/-- An ASCII letter, either case. -/
def isAsciiLetter (c : Char) : Bool := isAsciiUpper c || isAsciiLower c

/-- The class `\d` over the ASCII range (the identifiers quantified over are ASCII). -/
def isAsciiDigit (c : Char) : Bool := 48 ≤ c.toNat && c.toNat ≤ 57

/-! ## The issue-key regex `^[A-Z]+-\d+$` (src/utils.py line 161) -/

/-- Matching `[A-Z]+-\d+` against the whole character list.  The regex is
deterministic: `[A-Z]`, `-` and `\d` are pairwise disjoint classes, so greedy
scanning is exact. -/
def upperKeyCore (cs : List Char) : Bool :=
  let letters := cs.takeWhile isAsciiUpper
  let rest := cs.dropWhile isAsciiUpper
  if letters.isEmpty then false
  else
    match rest with
    | '-' :: rest2 =>
      let digits := rest2.takeWhile isAsciiDigit
      let rest3 := rest2.dropWhile isAsciiDigit
      !digits.isEmpty && rest3.isEmpty
    | _ => false

/-- Python `re.match(r'^[A-Z]+-\d+$', s)` as a whole-string test: `$` also
matches just before a single trailing newline. -/
def pyMatchUpperKey (s : String) : Bool :=
  upperKeyCore s.data ||
    (match s.data.getLast? with
     | some c => c == '\n' && upperKeyCore s.data.dropLast
     | none => false)

/-- Specification-side statement of "matches the issue-key shape,
case-insensitively": one or more ASCII letters (either case), a hyphen,
one or more ASCII digits. -/
def IssueKeyShapedCI (s : String) : Prop :=
  ∃ ls ds : List Char, s.data = ls ++ '-' :: ds ∧ ls ≠ [] ∧ ds ≠ [] ∧
    (∀ c ∈ ls, isAsciiLetter c = true) ∧ (∀ c ∈ ds, isAsciiDigit c = true)

/-! ## Issue search (src/utils.py lines 84-115, jira_client.py lines 202-230)

The tracker's JQL search (`jira_client.search_issues(jql, maxResults=20)`) is
an oracle from the JQL string to either the (already page-capped) list of
matching issue keys, newest first, or the message of a raised exception. -/

/-- The JQL string both search helpers build. -/
def jqlFor (project_key summary : String) : String :=
  "project = \"" ++ project_key ++ "\" AND summary ~ \"" ++ summary ++
    "\" ORDER BY created DESC"

/-- Embedding of `utils.find_issue_by_summary`: with `find_one = true` the unique hit's
key is returned (`Sum.inr`), otherwise the raw list (`Sum.inl`). -/
def find_issue_by_summary (searchIssues : String → Except String (List String))
    (project_key summary : String) (find_one : Bool) :
    Option (List String ⊕ String) × Option String :=
  match searchIssues (jqlFor project_key summary) with
  | .error e => (none, some ("Erro ao buscar issues: " ++ e))
  | .ok issues =>
    if find_one then
      match issues with
      | [k] => (some (.inr k), none)
      | [] => (none, some ("Nenhuma issue encontrada com o nome '" ++ summary ++
          "' no projeto '" ++ project_key ++ "'."))
      | _ => (none, some ("Ambiguidade: Múltiplas issues encontradas (" ++
          String.intercalate ", " (issues.map (fun k => "'" ++ k ++ "'")) ++
          "). Use a chave exata."))
    else (some (.inl issues), none)

/-- The capped candidate listing of `JiraClientService.find_issue_by_summary`
(jira_client.py lines 220-222): at most the first five keys, plus an
`and N more` tail when more than five matched. -/
def issueListStr (issues : List String) : String :=
  let issue_list := String.intercalate ", " ((issues.take 5).map (fun k => "'" ++ k ++ "'"))
  if 5 < issues.length then
    issue_list ++ " and " ++ toString (issues.length - 5) ++ " more"
  else issue_list

/-- Embedding of `JiraClientService.find_issue_by_summary` (jira_client.py lines 202-230):
one hit resolves, several produce the capped disambiguation message, none a
not-found message.  (A `JiraConnectionError` raised by the underlying search
propagates out of the Python function; the oracle's `error` case is the
generic `except Exception` handler of lines 229-230.) -/
def jc_find_issue_by_summary (searchIssues : String → Except String (List String))
    (project_key summary : String) : Option String × Option String :=
  match searchIssues (jqlFor project_key summary) with
  | .error e => (none, some ("Error searching for issue: " ++ e))
  | .ok issues =>
    match issues with
    | [k] => (some k, none)
    | [] => (none, some ("No issue found with summary '" ++ summary ++
        "' in project '" ++ project_key ++ "'"))
    | _ => (none, some ("Multiple issues found for summary '" ++ summary ++ "': " ++
        issueListStr issues ++ ". Please use exact issue key."))

/-! ## `utils.resolve_issue_identifier` (src/utils.py lines 146-169) -/

/-- Python string interpolation of an optional value (`None` prints as
`"None"`); only reachable with `some` in practice. -/
def pyStrOfOpt : Option String → String
  | some s => s
  | none => "None"

/-- Embedding of `utils.resolve_issue_identifier`, returning the `(issue_key,
error_message)` pair together with the number of tracker search calls it
issued (`0` on the key-shaped fast path, `1` otherwise). -/
def resolve_issue_identifier (searchIssues : String → Except String (List String))
    (project_key issue_identifier : String) :
    (Option String × Option String) × Nat :=
  if pyMatchUpperKey (pyUpper issue_identifier) then
    ((some (pyUpper issue_identifier), none), 0)
  else
    let (issue_key_found, error) :=
      find_issue_by_summary searchIssues project_key issue_identifier true
    match error with
    | some e => ((none, some ("Erro ao encontrar a issue: " ++ e)), 1)
    | none =>
      (((match issue_key_found with
         | some (.inr k) => some k
         | _ => none), none), 1)

/-! ## Dates and timestamps -/

/-- A calendar date. -/
structure Date where
  year : Nat
  month : Nat
  day : Nat
deriving DecidableEq, Repr

/-- A Python `datetime` value (date plus time of day). -/
structure PyDateTime where
  date : Date
  hour : Nat
  minute : Nat
  second : Nat
deriving DecidableEq, Repr

/-- The value `datetime.combine(d, datetime.min.time())`: the date at midnight. -/
def midnight (d : Date) : PyDateTime := ⟨d, 0, 0, 0⟩

/-- Zero-padded decimal rendering, as `strftime` field formatting does. -/
def padNum (width n : Nat) : String :=
  let s := toString n
  if s.length < width then String.mk (List.replicate (width - s.length) '0') ++ s else s

/-- Rendering `dt.strftime('%Y-%m-%d')`. -/
def fmtYmd (dt : PyDateTime) : String :=
  padNum 4 dt.date.year ++ "-" ++ padNum 2 dt.date.month ++ "-" ++ padNum 2 dt.date.day

/-! ## Work logging (src/utils.py lines 117-144) -/

/-- An `add_worklog` call issued to the tracker (the single external write
of the work-logging flows). -/
structure WorklogCall where
  issue : String
  timeSpent : String
  started : PyDateTime
  comment : String
deriving DecidableEq, Repr

/-- Embedding of `utils.log_work_for_issue`.  Here `dateparser.parse` is the oracle `parse`
(`none` models its `None` result on uninterpretable input); `addWorklog` is
the tracker write, whose `error` case models a raised exception caught by the
enclosing handler.  The returned list is the trace of attempted writes. -/
def log_work_for_issue (parse : String → Option PyDateTime)
    (addWorklog : WorklogCall → Except String Unit)
    (issue_key time_spent work_start_date work_description : String) :
    (Bool × String) × List WorklogCall :=
  match parse work_start_date with
  | none => ((false, "Data '" ++ work_start_date ++ "' inválida."), [])
  | some work_datetime =>
    let call : WorklogCall := ⟨issue_key, time_spent, work_datetime, work_description⟩
    match addWorklog call with
    | .ok _ => ((true, time_spent ++ " registrados em '" ++ issue_key ++ "'."), [call])
    | .error e => ((false, "Falha ao registrar em '" ++ issue_key ++ "': " ++ e), [call])

/-! ## Tool environment

The external collaborators of the tool layer, as oracles: the fetched
project list, the JQL search, the date parser, and the two tracker writes. -/

/-- The fields of the creation dict built by `batch_create_issues_func`
(batch_create_issues.py lines 41-49). -/
structure CreateFields where
  project_key : String
  summary : String
  description : String
  issuetype : String
  originalEstimate : Option String
deriving DecidableEq, Repr

/-- Outcome of `jira_client.create_issue`: the new issue's key, a raised
`JIRAError` (status code and optional text), or another raised exception. -/
inductive CreateOutcome
  | ok (key : String)
  | jiraError (status_code : Nat) (text : Option String)
  | exc (msg : String)
deriving DecidableEq, Repr

/-- Oracles for the tool layer. -/
structure Env where
  projects : List Project
  searchIssues : String → Except String (List String)
  parse : String → Option PyDateTime
  addWorklog : WorklogCall → Except String Unit
  createIssue : CreateFields → CreateOutcome

/-! ## `log_work_on_issue_func` (src/tools/log_work_on_issue.py) -/

/-- Input of the `log_work_on_issue` tool. -/
structure LogWorkInput where
  project_identifier : String
  issue_identifier : String
  time_spent : String
  work_start_date : String
  work_description : String
deriving DecidableEq, Repr

/-- Embedding of `log_work_on_issue_func`: resolve project, resolve issue, parse the date
(rejecting with a message quoting the input when it cannot be understood),
then issue the single worklog write. -/
def log_work_on_issue_func (env : Env) (tool_input : LogWorkInput) :
    String × List WorklogCall :=
  match validate_project_access env.projects tool_input.project_identifier with
  | (_, some e) => ("❌ " ++ e, [])
  | (pk, none) =>
    let project_key := pyStrOfOpt pk
    match (resolve_issue_identifier env.searchIssues project_key tool_input.issue_identifier).1 with
    | (_, some e) => ("❌ " ++ e, [])
    | (ik, none) =>
      let issue_key_to_log := pyStrOfOpt ik
      match env.parse tool_input.work_start_date with
      | none => ("❌ Erro: Não foi possível entender a data '" ++
          tool_input.work_start_date ++ "'.", [])
      | some work_datetime =>
        let call : WorklogCall :=
          ⟨issue_key_to_log, tool_input.time_spent, work_datetime, tool_input.work_description⟩
        match env.addWorklog call with
        | .ok _ => ("✅ Tempo registrado com sucesso na issue " ++ issue_key_to_log ++
            ": " ++ tool_input.time_spent ++ " em " ++ fmtYmd work_datetime ++ ".", [call])
        | .error e => ("❌ Erro ao registrar trabalho: " ++ e ++ ".", [call])

/-! ## `batch_log_work_func` (src/tools/batch_log_work.py) -/

/-- One work-log item of a batch. -/
structure WorkLogItem where
  issue_identifier : String
  time_spent : String
  work_start_date : String
  work_description : String
deriving DecidableEq, Repr

/-- Input of the `batch_log_work` tool. -/
structure BatchLogWorkInput where
  project_identifier : String
  work_logs : List WorkLogItem
deriving DecidableEq, Repr

/-- The body of the per-item loop of `batch_log_work_func` (lines 34-51):
resolve the issue, then log work, producing this item's single report entry
and its trace of attempted writes. -/
def processLogItem (env : Env) (project_key : String) (log : WorkLogItem) :
    String × List WorklogCall :=
  match (resolve_issue_identifier env.searchIssues project_key log.issue_identifier).1 with
  | (_, some e) => ("❌ Falha na task '" ++ log.issue_identifier ++ "': " ++ e, [])
  | (ik, none) =>
    let r := log_work_for_issue env.parse env.addWorklog (pyStrOfOpt ik)
      log.time_spent log.work_start_date log.work_description
    ((if r.1.1 then "✅ Sucesso: " ++ r.1.2 else "❌ Falha: " ++ r.1.2), r.2)

/-- The report-accumulating loop of `batch_log_work_func`, with the report
and write-trace accumulators made explicit. -/
def batchLogLoop (env : Env) (project_key : String)
    (report : List String) (callsAcc : List WorklogCall) :
    List WorkLogItem → List String × List WorklogCall
  | [] => (report, callsAcc)
  | log :: rest =>
    let r := processLogItem env project_key log
    batchLogLoop env project_key (report ++ [r.1]) (callsAcc ++ r.2) rest

/-- Embedding of `batch_log_work_func`: resolve the project once (critical error aborts
the whole batch), then run every item through the loop and join the report
entries with newlines. -/
def batch_log_work_func (env : Env) (tool_input : BatchLogWorkInput) :
    String × List WorklogCall :=
  match validate_project_access env.projects tool_input.project_identifier with
  | (_, some e) => ("❌ Erro Crítico: " ++ e ++ ". Nenhum registro processado.", [])
  | (pk, none) =>
    if tool_input.work_logs.isEmpty then
      ("Nenhum item para processar. Forneça uma lista de registros em 'work_logs'.", [])
    else
      let r := batchLogLoop env (pyStrOfOpt pk) [] [] tool_input.work_logs
      (String.intercalate "\n" r.1, r.2)

/-! ## `batch_create_issues_func` (src/tools/batch_create_issues.py) -/

/-- One issue of a creation batch (pydantic defaults made explicit). -/
structure IssueToCreate where
  project_name_or_key : String
  summary : String
  description : String
  issuetype : String
  original_estimate : String
  time_spent : String
  work_start_date : String
deriving DecidableEq, Repr

/-- The body of the per-item loop of `batch_create_issues_func` (lines
33-78).  The returned list is the trace of `create_issue` calls issued.

After a successful creation, when both `time_spent` and `work_start_date`
are non-empty the source calls `utils.is_valid_date` — but `src/utils.py`
defines no such function, so the attribute access raises `AttributeError`
(`"module 'src.utils' has no attribute 'is_valid_date'"`), which the
per-item `except Exception` handler (line 77-78) converts into the
full-failure entry of line 78; the partial-success branches of lines 57
and 67-70 are unreachable. -/
def processCreateItem (env : Env) (issue_data : IssueToCreate) :
    String × List CreateFields :=
  match validate_project_access env.projects issue_data.project_name_or_key with
  | (_, some e) => ("❌ Falha para '" ++ issue_data.summary ++ "': " ++ e, [])
  | (pk, none) =>
    let issue_dict : CreateFields :=
      ⟨pyStrOfOpt pk, issue_data.summary, issue_data.description, issue_data.issuetype,
        if issue_data.original_estimate ≠ "" then some issue_data.original_estimate else none⟩
    match env.createIssue issue_dict with
    | .jiraError code text =>
      ("❌ Falha ao criar issue '" ++ issue_data.summary ++ "': " ++ toString code ++
        " - " ++
        (match text with
         | some t => if t ≠ "" then t else "Nenhuma mensagem de erro detalhada recebida."
         | none => "Nenhuma mensagem de erro detalhada recebida."), [issue_dict])
    | .exc m => ("❌ Falha ao criar issue '" ++ issue_data.summary ++ "': " ++ m, [issue_dict])
    | .ok new_key =>
      let creation_message := "Issue '" ++ new_key ++ "' criada."
      if issue_data.time_spent ≠ "" && issue_data.work_start_date ≠ "" then
        ("❌ Falha ao criar issue '" ++ issue_data.summary ++
          "': module 'src.utils' has no attribute 'is_valid_date'", [issue_dict])
      else
        ("✅ Sucesso: " ++ creation_message, [issue_dict])

/-- The report-accumulating loop of `batch_create_issues_func`. -/
def batchCreateLoop (env : Env) (report : List String) (callsAcc : List CreateFields) :
    List IssueToCreate → List String × List CreateFields
  | [] => (report, callsAcc)
  | issue_data :: rest =>
    let r := processCreateItem env issue_data
    batchCreateLoop env (report ++ [r.1]) (callsAcc ++ r.2) rest

/-- Embedding of `batch_create_issues_func`. -/
def batch_create_issues_func (env : Env) (issues_to_create : List IssueToCreate) :
    String × List CreateFields :=
  if issues_to_create.isEmpty then
    ("Nenhum item para processar. Forneça uma lista de issues em 'issues_to_create'.", [])
  else
    let r := batchCreateLoop env [] [] issues_to_create
    (String.intercalate "\n" r.1, r.2)

/-! ## Duration validation (src/core/validators.py lines 44-56) -/

/-- The class `[wdhm]` under `re.IGNORECASE`. -/
def isTimeUnitChar (c : Char) : Bool :=
  c == 'w' || c == 'd' || c == 'h' || c == 'm' ||
    c == 'W' || c == 'D' || c == 'H' || c == 'M'

/-- Whole-string match of `(\d+[wdhm]\s*)+`.  The regex is deterministic
(`\d`, `[wdhm]` and `\s` are pairwise disjoint classes), so greedy scanning
is exact: one or more groups of digits, a unit letter and optional
whitespace. -/
def matchTimeAux : Nat → List Char → Bool
  | 0, _ => false
  | fuel + 1, cs =>
    if (cs.takeWhile Char.isDigit).isEmpty then false
    else
      match cs.dropWhile Char.isDigit with
      | [] => false
      | u :: rest2 =>
        if isTimeUnitChar u then
          (rest2.dropWhile pyIsSpace).isEmpty ||
            matchTimeAux fuel (rest2.dropWhile pyIsSpace)
        else false

/-- Running `matchTimeAux` with fuel `cs.length`: each group consumes at least two
characters and the remainder's length stays below the remaining fuel, so
the fuel never runs out on any input. -/
def matchTimeGroups (cs : List Char) : Bool := matchTimeAux cs.length cs

/-- Embedding of `validators.validate_time_format`: strip, then match
`^(\d+[wdhm]\s*)+$` case-insensitively.  (After `strip()` the string has no
trailing newline, so `$` is an end-of-string anchor here.) -/
def validate_time_format (time_string : String) : Bool :=
  matchTimeGroups (pyStrip time_string).data

/-- The `ValidationResult` record of `ValidationService` (validation_service.py lines
23-41): `warnings` defaults to `[]`, `sanitized_value` to `None`. -/
structure ValidationResult where
  is_valid : Bool
  errors : List String
  warnings : List String
  sanitized_value : Option String
deriving DecidableEq, Repr

/-- Embedding of `ValidationService.validate_time_format` (validation_service.py lines
52-78): an empty or whitespace-only string is valid-but-absent (no
sanitized value, no error); otherwise the stripped string is checked
against the duration grammar of `validate_time_format`. -/
def service_validate_time_format (time_str : String) : ValidationResult :=
  if time_str == "" || pyStrip time_str == "" then ⟨true, [], [], none⟩
  else
    let t := pyStrip time_str
    if validate_time_format t then ⟨true, [], [], some t⟩
    else ⟨false, ["Formato de tempo inválido: '" ++ t ++
      "'. Use formato como '2h 30m', '1d', '4h'"], [], none⟩

/-! ## `WorklogService` (src/domain/services/worklog_service.py)

`WorklogCreateInput` is constructed in src/tools/issue/add_worklog.py lines
61-66 with fields `issue_key`, `time_spent`, `work_date` (optional) and
`description`; the class itself is imported from `domain.models.worklog`
where no definition appears, so its shape is taken from that construction
site and from its use in the service. -/

/-- Input of `WorklogService.add_worklog_to_issue`. -/
structure WorklogCreateInput where
  issue_key : String
  time_spent : String
  work_date : Option String
  description : Option String
deriving DecidableEq, Repr

/-- Embedding of `WorklogService._parse_work_date` (worklog_service.py lines 103-124).
`dateutil.parser.parse(s).date()` is the oracle `duParse` (`none` models a
raised `ValueError`/`ParserError`, caught on lines 122-124).  A falsy
(absent or empty) date, and equally an unparseable one, yield today's date
combined with midnight. -/
def ws_parse_work_date (today : Date) (duParse : String → Option Date) :
    Option String → PyDateTime
  | none => midnight today
  | some s =>
    if s == "" then midnight today
    else
      match duParse s with
      | some d => midnight d
      | none => midnight today

/-- Errors `WorklogService.add_worklog_to_issue` raises. -/
inductive WsError
  | issueNotFound (key : String)
  | connection (msg : String)
deriving DecidableEq, Repr

/-- Outcome of `JiraClientService.add_worklog` as seen by the service:
success, a 404 (`IssueNotFoundError`), or a connection failure. -/
inductive AddWorklogOutcome
  | ok
  | notFound
  | connErr (msg : String)
deriving DecidableEq, Repr

/-- Embedding of `WorklogService.add_worklog_to_issue` (worklog_service.py lines 38-101):
parse the work date, check the issue exists (any failure there becomes
`IssueNotFoundError`), then issue the single tracker write.  On a
successful write the source then calls `self.jira_client.get_issue_url`,
which `JiraClientService` does not define, so the `AttributeError` is
caught by the generic handler of lines 96-101 and re-raised as a
`JiraConnectionError`; the write has already happened at that point.  The
returned list is the trace of tracker writes. -/
def ws_add_worklog_to_issue (getIssue : String → Except String Unit)
    (addWorklog : WorklogCall → AddWorklogOutcome)
    (today : Date) (duParse : String → Option Date)
    (worklog_input : WorklogCreateInput) : Except WsError String × List WorklogCall :=
  let work_datetime := ws_parse_work_date today duParse worklog_input.work_date
  match getIssue worklog_input.issue_key with
  | .error _ => (.error (.issueNotFound worklog_input.issue_key), [])
  | .ok _ =>
    let call : WorklogCall :=
      ⟨worklog_input.issue_key, worklog_input.time_spent, work_datetime,
        (worklog_input.description.getD "")⟩
    match addWorklog call with
    | .notFound => (.error (.issueNotFound worklog_input.issue_key), [call])
    | .connErr e => (.error (.connection ("Failed to add worklog: " ++ e)), [call])
    | .ok =>
      (.error (.connection
        ("Failed to add worklog: 'JiraClientService' object has no attribute 'get_issue_url'")),
        [call])

/-- Embedding of `WorklogService.resolve_issue_identifier` (worklog_service.py lines
142-204).  Fast-path guard: the identifier contains a dash and at least one
uppercase character; then the issue is looked up with `get_issue` (a
tracker call) and, if found, the identifier is returned *unchanged*.  In
every other case control reaches
`self.jira_client.search_issues_by_summary(...)` — a method
`JiraClientService` does not define — so an `AttributeError` is raised and
caught by the handler of lines 199-204.  The `Nat` counts tracker calls
(`get_issue` lookups) issued. -/
def ws_resolve_issue_identifier (getIssue : String → Except String Unit)
    (issue_identifier : String) : (Option String × Option String) × Nat :=
  if pyIn "-" issue_identifier && issue_identifier.data.any Char.isUpper then
    match getIssue issue_identifier with
    | .ok _ => ((some issue_identifier, none), 1)
    | .error _ =>
      ((none, some ("❌ Error resolving issue identifier: 'JiraClientService' object has no attribute 'search_issues_by_summary'")), 1)
  else
    ((none, some ("❌ Error resolving issue identifier: 'JiraClientService' object has no attribute 'search_issues_by_summary'")), 0)

/-- A concrete oracle environment used in closed evaluations: one project
`PK`, an empty search result, a parser that understands only `"hoje"`, and
tracker writes that always succeed. -/
def envA : Env where
  projects := [⟨"PK", "Projeto", none⟩]
  searchIssues := fun _ => .ok []
  parse := fun d => if d == "hoje" then some ⟨⟨2024, 1, 2⟩, 0, 0, 0⟩ else none
  addWorklog := fun _ => .ok ()
  createIssue := fun _ => .ok "PK-9"

/-! ## Helper lemmas: dict deduplication -/

theorem anyMapComp {α β : Type} (f : α → β) (p : β → Bool) (l : List α) :
    (l.map f).any p = l.any (fun a => p (f a)) := by
  induction l with
  | nil => rfl
  | cons a t ih => simp only [List.map_cons, List.any_cons, ih]

theorem dictInsert_map_key (m : List Project) (p : Project) :
    (dictInsert m p).map Project.key =
      (if (m.map Project.key).any (fun x => x == p.key) then m.map Project.key
       else m.map Project.key ++ [p.key]) := by
  unfold dictInsert
  rw [show (m.any fun q => q.key == p.key)
        = ((m.map Project.key).any fun x => x == p.key) from
      (anyMapComp Project.key (fun x => x == p.key) m).symm]
  by_cases h : ((m.map Project.key).any fun x => x == p.key) = true
  · rw [if_pos h, if_pos h, List.map_map]
    apply List.map_congr_left
    intro q _
    show Project.key (if (q.key == p.key) = true then p else q) = q.key
    by_cases hk : (q.key == p.key) = true
    · rw [if_pos hk]; exact (eq_of_beq hk).symm
    · rw [if_neg hk]
  · rw [if_neg h, if_neg h, List.map_append]
    rfl

theorem foldl_dictInsert_map_key (ps : List Project) : ∀ m : List Project,
    (ps.foldl dictInsert m).map Project.key =
      (ps.map Project.key).foldl
        (fun acc k => if acc.any (fun x => x == k) then acc else acc ++ [k])
        (m.map Project.key) := by
  induction ps with
  | nil => intro m; rfl
  | cons p rest ih =>
    intro m
    simp only [List.foldl_cons, List.map_cons]
    rw [ih, dictInsert_map_key]

theorem dedupByKey_map_key (ps : List Project) :
    (dedupByKey ps).map Project.key = distinctKeys (ps.map Project.key) :=
  foldl_dictInsert_map_key ps []

theorem dedupByKey_length (ps : List Project) :
    (dedupByKey ps).length = (distinctKeys (ps.map Project.key)).length := by
  rw [← dedupByKey_map_key, List.length_map]

theorem mem_dictInsert {x : Project} {m : List Project} {p : Project}
    (h : x ∈ dictInsert m p) : x ∈ m ∨ x = p := by
  unfold dictInsert at h
  by_cases hb : (m.any fun q => q.key == p.key) = true
  · rw [if_pos hb] at h
    rcases List.mem_map.mp h with ⟨q, hq, hx⟩
    by_cases hk : (q.key == p.key) = true
    · rw [if_pos hk] at hx; right; exact hx.symm
    · rw [if_neg hk] at hx; left; exact hx ▸ hq
  · rw [if_neg hb] at h
    rcases List.mem_append.mp h with h1 | h1
    · left; exact h1
    · right; simpa using h1

theorem mem_foldl_dictInsert {x : Project} : ∀ {ps m : List Project},
    x ∈ ps.foldl dictInsert m → x ∈ m ∨ x ∈ ps := by
  intro ps
  induction ps with
  | nil => intro m h; left; exact h
  | cons p rest ih =>
    intro m h
    simp only [List.foldl_cons] at h
    rcases ih h with h1 | h1
    · rcases mem_dictInsert h1 with h2 | h2
      · left; exact h2
      · right; rw [h2]; exact List.mem_cons_self p rest
    · right; exact List.mem_cons_of_mem p h1

theorem mem_dedupByKey {x : Project} {ps : List Project}
    (h : x ∈ dedupByKey ps) : x ∈ ps := by
  rcases mem_foldl_dictInsert h with h1 | h1
  · simp at h1
  · exact h1

/-! ## Helper lemmas: the empty query matches everything -/

theorem projMatches_empty_query (p : Project) : projMatches (pyLower "") p = true := by
  have h1 : pyLower "" = "" := rfl
  rw [h1]
  unfold projMatches pyIn
  have h2 : (("" : String).data <:+: (pyLower p.name).data) := List.nil_infix
  simp [h2]

theorem foundProjects_empty_query (ps : List Project) : foundProjects ps "" = ps :=
  List.filter_eq_self.mpr (fun p _ => projMatches_empty_query p)

/-- The match equation of `find_project_by_identifier`. -/
theorem find_project_by_identifier_eq (projects : List Project) (identifier : String) :
    find_project_by_identifier projects identifier =
      match dedupByKey (foundProjects projects identifier) with
      | [p] => (some p.key, none)
      | [] => (none, some (notFoundProjMsg identifier))
      | ps => (none, some (ambiguousProjMsg identifier ps)) := rfl

theorem two_le_length_split {α : Type} {l : List α} (h : 2 ≤ l.length) :
    ∃ a b t, l = a :: b :: t := by
  match l, h with
  | a :: b :: t, _ => exact ⟨a, b, t, rfl⟩

/-- C1 (amended part): in `JiraClientService.find_project`, whenever some
candidate's key equals the query case-insensitively, resolution returns
`Resolved` with such a candidate's key immediately, regardless of any other
candidates' partial name or description matches. -/
theorem C1_find_project_exact_key_wins (projects : List Project) (identifier : String)
    (h : ∃ p ∈ projects, pyLower p.key = pyLower identifier) :
    ∃ p ∈ projects, pyLower p.key = pyLower identifier ∧
      find_project projects identifier = (some p.key, none) := by
  have hsome : (projects.find? (fun p => pyLower p.key == pyLower identifier)).isSome := by
    apply List.find?_isSome.mpr
    rcases h with ⟨p, hp, he⟩
    exact ⟨p, hp, by simpa using he⟩
  rcases Option.isSome_iff_exists.mp hsome with ⟨q, hq⟩
  have hbeq : (pyLower q.key == pyLower identifier) = true := by
    simpa using List.find?_some hq
  refine ⟨q, List.mem_of_find?_eq_some hq, eq_of_beq hbeq, ?_⟩
  simp only [find_project]
  rw [hq]

/-- C1 counterexample: in `utils.find_project_by_identifier`, candidate
`AB` matches the query `"ab"` by exact key while candidate `CD` partially
matches it by name, and resolution does *not* return `Resolved("AB")` — it
returns no key at all (the ambiguous outcome), so the exact-key match does
not short-circuit there. -/
theorem C1_counterexample :
    (∃ p ∈ ([⟨"AB", "Alpha", none⟩, ⟨"CD", "AB tools", none⟩] : List Project),
        pyLower p.key = pyLower "ab") ∧
    (find_project_by_identifier
        [⟨"AB", "Alpha", none⟩, ⟨"CD", "AB tools", none⟩] "ab").1 = none := by
  decide

/-- C1 witness: the amended theorem applied to a concrete list in which
one candidate's key is an exact match and another's name a partial match. -/
theorem C1_witness :
    ∃ p ∈ ([⟨"AB", "Alpha", none⟩, ⟨"CD", "AB tools", none⟩] : List Project),
      pyLower p.key = pyLower "ab" ∧
        find_project [⟨"AB", "Alpha", none⟩, ⟨"CD", "AB tools", none⟩] "ab" =
          (some p.key, none) :=
  C1_find_project_exact_key_wins _ _ (by decide)

/-- C4: in `utils.find_project_by_identifier`, with no exact key match:
zero matched candidates give the not-found outcome; exactly one distinct
matched key gives `Resolved` with a matched candidate's key; two or more
distinct matched keys give the ambiguous outcome whose candidate list has
exactly one entry per distinct matched key (multi-field matches counted
once). -/
theorem C4_match_cardinality (projects : List Project) (identifier : String)
    (hnokey : ∀ p ∈ projects, pyLower p.key ≠ pyLower identifier) :
    (foundProjects projects identifier = [] →
      find_project_by_identifier projects identifier =
        (none, some (notFoundProjMsg identifier))) ∧
    ((distinctKeys ((foundProjects projects identifier).map Project.key)).length = 1 →
      ∃ p ∈ foundProjects projects identifier,
        find_project_by_identifier projects identifier = (some p.key, none)) ∧
    (2 ≤ (distinctKeys ((foundProjects projects identifier).map Project.key)).length →
      find_project_by_identifier projects identifier =
        (none, some (ambiguousProjMsg identifier
          (dedupByKey (foundProjects projects identifier)))) ∧
      (dedupByKey (foundProjects projects identifier)).length =
        (distinctKeys ((foundProjects projects identifier).map Project.key)).length) := by
  refine ⟨?_, ?_, ?_⟩
  · intro h0
    rw [find_project_by_identifier_eq, h0]
    rfl
  · intro h1
    have hlen : (dedupByKey (foundProjects projects identifier)).length = 1 := by
      rw [dedupByKey_length]; exact h1
    rcases List.length_eq_one.mp hlen with ⟨p, hp⟩
    refine ⟨p, mem_dedupByKey (by rw [hp]; exact List.mem_singleton_self p), ?_⟩
    rw [find_project_by_identifier_eq, hp]
  · intro h2
    have hlen : 2 ≤ (dedupByKey (foundProjects projects identifier)).length := by
      rw [dedupByKey_length]; exact h2
    rcases two_le_length_split hlen with ⟨a, b, t, habt⟩
    constructor
    · rw [find_project_by_identifier_eq, habt]
    · exact dedupByKey_length _

/-- C4 witness: the theorem applied to a two-candidate list with no exact
key match; the query `"al"` matches both names, giving two distinct keys. -/
theorem C4_witness :
    (∀ p ∈ ([⟨"K1", "Alpha", none⟩, ⟨"K2", "Albatross", none⟩] : List Project),
        pyLower p.key ≠ pyLower "al") ∧
    (2 ≤ (distinctKeys ((foundProjects
          [⟨"K1", "Alpha", none⟩, ⟨"K2", "Albatross", none⟩] "al").map Project.key)).length →
      find_project_by_identifier [⟨"K1", "Alpha", none⟩, ⟨"K2", "Albatross", none⟩] "al" =
        (none, some (ambiguousProjMsg "al"
          (dedupByKey (foundProjects
            [⟨"K1", "Alpha", none⟩, ⟨"K2", "Albatross", none⟩] "al")))) ∧
      (dedupByKey (foundProjects
          [⟨"K1", "Alpha", none⟩, ⟨"K2", "Albatross", none⟩] "al")).length =
        (distinctKeys ((foundProjects
          [⟨"K1", "Alpha", none⟩, ⟨"K2", "Albatross", none⟩] "al").map Project.key)).length) :=
  ⟨by decide, (C4_match_cardinality _ _ (by decide)).2.2⟩

/-- C5 counterexample: a non-empty candidate list for which the empty query
does *not* yield the ambiguous outcome — with a single candidate the empty
query resolves to that candidate's key. -/
theorem C5_counterexample :
    find_project_by_identifier [⟨"A", "X", none⟩] "" = (some "A", none) := by
  decide

/-- C5 (amended): for every candidate list with at least two distinct keys,
the empty query matches every candidate (every name contains the empty
string) and `utils.find_project_by_identifier` yields the ambiguous outcome
listing all candidates, while the match path itself is total (never
throws). -/
theorem C5_empty_query_ambiguous (projects : List Project)
    (h2 : 2 ≤ (distinctKeys (projects.map Project.key)).length) :
    find_project_by_identifier projects "" =
      (none, some (ambiguousProjMsg "" (dedupByKey projects))) := by
  have hfound : foundProjects projects "" = projects := foundProjects_empty_query projects
  have hlen : 2 ≤ (dedupByKey projects).length := by
    rw [dedupByKey_length]; exact h2
  rcases two_le_length_split hlen with ⟨a, b, t, habt⟩
  rw [find_project_by_identifier_eq, hfound, habt]

/-- C5 witness: the amended theorem applied to a two-candidate list. -/
theorem C5_witness :
    2 ≤ (distinctKeys (([⟨"A", "X", none⟩, ⟨"B", "Y", none⟩] : List Project).map
        Project.key)).length ∧
    find_project_by_identifier [⟨"A", "X", none⟩, ⟨"B", "Y", none⟩] "" =
      (none, some (ambiguousProjMsg ""
        (dedupByKey [⟨"A", "X", none⟩, ⟨"B", "Y", none⟩]))) :=
  ⟨by decide, C5_empty_query_ambiguous _ (by decide)⟩

set_option maxRecDepth 4000 in
/-- C7 counterexample: when `utils.find_project_by_identifier` is ambiguous
over six matched candidates, its user-facing listing enumerates all six
(`'x1' (K1)` … `'x6' (K6)`) with no five-entry cap and no trailing
remaining-matches indicator. -/
theorem C7_counterexample :
    find_project_by_identifier
        [⟨"K1", "x1", none⟩, ⟨"K2", "x2", none⟩, ⟨"K3", "x3", none⟩,
         ⟨"K4", "x4", none⟩, ⟨"K5", "x5", none⟩, ⟨"K6", "x6", none⟩] "x" =
      (none, some ("Ambiguidade encontrada. O termo 'x' corresponde a múltiplos projetos: 'x1' (K1), 'x2' (K2), 'x3' (K3), 'x4' (K4), 'x5' (K5), 'x6' (K6). Por favor, seja mais específico ou use a chave do projeto.")) := by
  decide

/-- C7 (amended): in `JiraClientService.find_issue_by_summary`, an
ambiguous search result produces a listing of exactly `min 5 n` candidate
keys, and when more than five matched the message carries the trailing
`and N more` indicator with the number of unlisted matches. -/
theorem C7_capped_listing (searchIssues : String → Except String (List String))
    (project_key summary : String) (issues : List String)
    (hok : searchIssues (jqlFor project_key summary) = .ok issues)
    (h2 : 2 ≤ issues.length) :
    jc_find_issue_by_summary searchIssues project_key summary =
      (none, some ("Multiple issues found for summary '" ++ summary ++ "': " ++
        issueListStr issues ++ ". Please use exact issue key.")) ∧
    ((issues.take 5).map (fun k => "'" ++ k ++ "'")).length = min 5 issues.length ∧
    (5 < issues.length →
      issueListStr issues =
        String.intercalate ", " ((issues.take 5).map (fun k => "'" ++ k ++ "'")) ++
          " and " ++ toString (issues.length - 5) ++ " more") := by
  refine ⟨?_, ?_, ?_⟩
  · unfold jc_find_issue_by_summary
    rw [hok]
    rcases two_le_length_split h2 with ⟨a, b, t, habt⟩
    rw [habt]
  · rw [List.length_map, List.length_take]
  · intro h5
    unfold issueListStr
    rw [if_pos h5]

/-- C7 witness: the amended theorem applied to a seven-hit search, where
the listing is capped at five keys and reports two more matches. -/
theorem C7_witness :
    jc_find_issue_by_summary
        (fun _ => .ok ["A-1", "A-2", "A-3", "A-4", "A-5", "A-6", "A-7"]) "PK" "login" =
      (none, some ("Multiple issues found for summary 'login': " ++
        issueListStr ["A-1", "A-2", "A-3", "A-4", "A-5", "A-6", "A-7"] ++
        ". Please use exact issue key.")) ∧
    ((["A-1", "A-2", "A-3", "A-4", "A-5", "A-6", "A-7"].take 5).map
        (fun k => "'" ++ k ++ "'")).length =
      min 5 (["A-1", "A-2", "A-3", "A-4", "A-5", "A-6", "A-7"] : List String).length ∧
    (5 < (["A-1", "A-2", "A-3", "A-4", "A-5", "A-6", "A-7"] : List String).length →
      issueListStr ["A-1", "A-2", "A-3", "A-4", "A-5", "A-6", "A-7"] =
        String.intercalate ", " ((["A-1", "A-2", "A-3", "A-4", "A-5", "A-6", "A-7"].take 5).map
          (fun k => "'" ++ k ++ "'")) ++ " and " ++
          toString ((["A-1", "A-2", "A-3", "A-4", "A-5", "A-6", "A-7"] : List String).length - 5)
          ++ " more") :=
  C7_capped_listing _ "PK" "login" _ rfl (by decide)

/-! ## Helper lemmas: ASCII case mapping -/

theorem toNat_ofNat_valid (n : Nat) (h : n < 55296) : (Char.ofNat n).toNat = n := by
  unfold Char.ofNat
  rw [dif_pos (Or.inl h)]
  rfl

theorem toUpper_toNat_of_lower (c : Char) (h97 : 97 ≤ c.toNat) (h122 : c.toNat ≤ 122) :
    (Char.toUpper c).toNat = c.toNat - 32 := by
  simp only [Char.toUpper]
  rw [if_pos ⟨h97, h122⟩]
  exact toNat_ofNat_valid _ (by omega)

theorem toUpper_of_not_lower (c : Char) (h : ¬(97 ≤ c.toNat ∧ c.toNat ≤ 122)) :
    Char.toUpper c = c := by
  simp only [Char.toUpper]
  rw [if_neg h]

theorem isAsciiUpper_toUpper (c : Char) (h : isAsciiLetter c = true) :
    isAsciiUpper (Char.toUpper c) = true := by
  simp only [isAsciiLetter, isAsciiUpper, isAsciiLower, Bool.or_eq_true,
    Bool.and_eq_true, decide_eq_true_eq] at h
  rcases h with h | h
  · rw [toUpper_of_not_lower c (by omega)]
    simp only [isAsciiUpper, Bool.and_eq_true, decide_eq_true_eq]
    omega
  · have ht := toUpper_toNat_of_lower c h.1 h.2
    simp only [isAsciiUpper, Bool.and_eq_true, decide_eq_true_eq, ht]
    omega

theorem toUpper_digit (c : Char) (h : isAsciiDigit c = true) : Char.toUpper c = c := by
  simp only [isAsciiDigit, Bool.and_eq_true, decide_eq_true_eq] at h
  exact toUpper_of_not_lower c (by omega)

/-! ## Helper lemmas: the key-shape regex accepts uppercased shaped input -/

theorem upperKeyCore_of_shape (ls ds : List Char)
    (hls : ls ≠ []) (hds : ds ≠ [])
    (hl : ∀ c ∈ ls, isAsciiUpper c = true) (hd : ∀ c ∈ ds, isAsciiDigit c = true) :
    upperKeyCore (ls ++ '-' :: ds) = true := by
  have ht : (ls ++ '-' :: ds).takeWhile isAsciiUpper = ls := by
    rw [List.takeWhile_append_of_pos hl, List.takeWhile_cons_of_neg (by decide)]
    exact List.append_nil ls
  have hdp : (ls ++ '-' :: ds).dropWhile isAsciiUpper = '-' :: ds := by
    rw [List.dropWhile_append_of_pos hl, List.dropWhile_cons_of_neg (by decide)]
  have htd : ds.takeWhile isAsciiDigit = ds := List.takeWhile_eq_self_iff.mpr hd
  have hdd : ds.dropWhile isAsciiDigit = [] := List.dropWhile_eq_nil_iff.mpr hd
  simp only [upperKeyCore]
  rw [ht, hdp]
  rw [if_neg (by simpa [List.isEmpty_iff] using hls)]
  simp only [htd, hdd]
  simp [List.isEmpty_iff, hds]

theorem pyMatchUpperKey_of_shape (s : String) (h : IssueKeyShapedCI s) :
    pyMatchUpperKey (pyUpper s) = true := by
  rcases h with ⟨ls, ds, hsplit, hls, hds, hl, hd⟩
  have hdata : (pyUpper s).data = ls.map Char.toUpper ++ '-' :: ds := by
    show s.data.map Char.toUpper = _
    rw [hsplit, List.map_append, List.map_cons]
    have h1 : Char.toUpper '-' = '-' := by decide
    have h2 : ds.map Char.toUpper = ds := by
      rw [show ds.map Char.toUpper = ds.map id from
        List.map_congr_left (fun c hc => toUpper_digit c (hd c hc)), List.map_id]
    rw [h1, h2]
  have hcore : upperKeyCore ((pyUpper s).data) = true := by
    rw [hdata]
    refine upperKeyCore_of_shape _ _ ?_ hds ?_ hd
    · simpa using hls
    · intro c hc
      rcases List.mem_map.mp hc with ⟨a, ha, rfl⟩
      exact isAsciiUpper_toUpper a (hl a ha)
  unfold pyMatchUpperKey
  simp [hcore]

/-- C3 (amended part): in `utils.resolve_issue_identifier`, every
identifier matching the issue-key shape (letters, hyphen, digits,
case-insensitive) is returned uppercased immediately, with zero search
calls issued to the tracker, for every search oracle. -/
theorem C3_fast_path (searchIssues : String → Except String (List String))
    (project_key s : String) (h : IssueKeyShapedCI s) :
    resolve_issue_identifier searchIssues project_key s =
      ((some (pyUpper s), none), 0) := by
  unfold resolve_issue_identifier
  rw [if_pos (pyMatchUpperKey_of_shape s h)]

/-- C3 witness: the amended theorem applied to the lowercase key-shaped
identifier `"proj-7"`, which resolves to `"PROJ-7"` without search. -/
theorem C3_witness :
    resolve_issue_identifier (fun _ => .ok []) "PK" "proj-7" =
      ((some (pyUpper "proj-7"), none), 0) :=
  C3_fast_path _ "PK" "proj-7"
    ⟨['p', 'r', 'o', 'j'], ['7'], by decide, by decide, by decide, by decide, by decide⟩

/-- C3 counterexample: `WorklogService.resolve_issue_identifier` violates
the claim.  `"abc-7"` matches the issue-key shape case-insensitively, yet
resolution (with every tracker lookup succeeding) does not return
`("ABC-7", no error)`; and for `"PROJ-123"` the service issues a tracker
`get_issue` lookup call instead of answering purely syntactically. -/
theorem C3_counterexample :
    pyMatchUpperKey (pyUpper "abc-7") = true ∧
    (ws_resolve_issue_identifier (fun _ => Except.ok ()) "abc-7").1 ≠
      (some "ABC-7", none) ∧
    (ws_resolve_issue_identifier (fun _ => Except.ok ()) "PROJ-123").2 = 1 := by
  decide

/-- C8: for every work-date string the date parser cannot interpret
(an explicit `None`, never an exception), `utils.log_work_for_issue`
returns a failure message quoting the original string and issues no
tracker write; and `log_work_on_issue_func`, after project and issue
resolution succeed, likewise returns a user-facing failure quoting the
date string and issues no write. -/
theorem C8_unparseable_date_no_write (parse : String → Option PyDateTime)
    (addWorklog : WorklogCall → Except String Unit) (env : Env)
    (issue_key time_spent s work_description pid iid ts wd pk ik : String)
    (hparse : parse s = none)
    (henv : env.parse s = none)
    (hproj : validate_project_access env.projects pid = (some pk, none))
    (hissue : (resolve_issue_identifier env.searchIssues pk iid).1 = (some ik, none)) :
    log_work_for_issue parse addWorklog issue_key time_spent s work_description =
      ((false, "Data '" ++ s ++ "' inválida."), []) ∧
    log_work_on_issue_func env ⟨pid, iid, ts, s, wd⟩ =
      ("❌ Erro: Não foi possível entender a data '" ++ s ++ "'.", []) := by
  constructor
  · unfold log_work_for_issue
    rw [hparse]
  · simp only [log_work_on_issue_func, hproj, pyStrOfOpt, hissue, henv]

/-- C8 witness: the theorem applied to the unparseable date `"bad"` under
the concrete environment `envA`. -/
theorem C8_witness :
    log_work_for_issue (fun _ => none) (fun _ => .ok ()) "PK-1" "2h" "bad" "work" =
      ((false, "Data '" ++ "bad" ++ "' inválida."), []) ∧
    log_work_on_issue_func envA ⟨"PK", "PK-1", "2h", "bad", "work"⟩ =
      ("❌ Erro: Não foi possível entender a data '" ++ "bad" ++ "'.", []) :=
  C8_unparseable_date_no_write (fun _ => none) (fun _ => .ok ()) envA
    "PK-1" "2h" "bad" "work" "PK" "PK-1" "2h" "work" "PK" "PK-1"
    rfl (by decide) (by decide) (by decide)

/-- C9: the duration validator accepts `"2h 30m"`, `"1d"`, `"4h"` and
`"1w 2d 3h 4m"`, rejects `"2 hours"`, `""` and `"h2"`; and the validation
service treats the empty string as valid-but-absent (valid, no errors, no
sanitized value), not as a validation failure. -/
theorem C9_duration_validation :
    validate_time_format "2h 30m" = true ∧
    validate_time_format "1d" = true ∧
    validate_time_format "4h" = true ∧
    validate_time_format "1w 2d 3h 4m" = true ∧
    validate_time_format "2 hours" = false ∧
    validate_time_format "" = false ∧
    validate_time_format "h2" = false ∧
    service_validate_time_format "" = ⟨true, [], [], none⟩ := by
  decide

/-- C10: in `WorklogService`, a work-date string rejected by the underlying
parser makes `_parse_work_date` return today's date at midnight — the very
value used for an absent date — rather than signalling an error, and
`add_worklog_to_issue` then issues its tracker write dated today. -/
theorem C10_unparseable_date_defaults_to_today (today : Date)
    (duParse : String → Option Date) (getIssue : String → Except String Unit)
    (addWorklog : WorklogCall → AddWorklogOutcome)
    (inp : WorklogCreateInput) (s : String)
    (hs : s ≠ "") (hparse : duParse s = none) (hinp : inp.work_date = some s)
    (hget : getIssue inp.issue_key = .ok ()) :
    ws_parse_work_date today duParse (some s) = midnight today ∧
    ws_parse_work_date today duParse none = midnight today ∧
    (ws_add_worklog_to_issue getIssue addWorklog today duParse inp).2 =
      [⟨inp.issue_key, inp.time_spent, midnight today, inp.description.getD ""⟩] := by
  have hpw : ws_parse_work_date today duParse (some s) = midnight today := by
    simp only [ws_parse_work_date]
    rw [if_neg (by simpa using hs), hparse]
  refine ⟨hpw, rfl, ?_⟩
  simp only [ws_add_worklog_to_issue, hinp, hpw, hget]
  cases addWorklog ⟨inp.issue_key, inp.time_spent, midnight today, inp.description.getD ""⟩ <;>
    rfl

/-- C10 witness: the theorem applied to the date `"not a date"` on run-date
2024-03-15 with a tracker in which the issue exists. -/
theorem C10_witness :
    ws_parse_work_date ⟨2024, 3, 15⟩ (fun _ => none) (some "not a date") =
      midnight ⟨2024, 3, 15⟩ ∧
    ws_parse_work_date ⟨2024, 3, 15⟩ (fun _ => none) none = midnight ⟨2024, 3, 15⟩ ∧
    (ws_add_worklog_to_issue (fun _ => .ok ()) (fun _ => .ok) ⟨2024, 3, 15⟩
        (fun _ => none) ⟨"PK-1", "2h", some "not a date", none⟩).2 =
      [⟨"PK-1", "2h", midnight ⟨2024, 3, 15⟩, ""⟩] :=
  C10_unparseable_date_defaults_to_today ⟨2024, 3, 15⟩ (fun _ => none)
    (fun _ => .ok ()) (fun _ => .ok) ⟨"PK-1", "2h", some "not a date", none⟩
    "not a date" (by decide) rfl rfl rfl

/-- The report loop of `batch_log_work_func` produces exactly one report
entry per item, in input order, and concatenates the items' write traces in
order: no item's failure stops the loop. -/
theorem batchLogLoop_eq (env : Env) (project_key : String) :
    ∀ (items : List WorkLogItem) (report : List String) (callsAcc : List WorklogCall),
      batchLogLoop env project_key report callsAcc items =
        (report ++ items.map (fun it => (processLogItem env project_key it).1),
         callsAcc ++ (items.map (fun it => (processLogItem env project_key it).2)).flatten) := by
  intro items
  induction items with
  | nil => intro report callsAcc; simp [batchLogLoop]
  | cons it rest ih =>
    intro report callsAcc
    simp only [batchLogLoop]
    rw [ih]
    simp [List.append_assoc]

/-- C6: once the project identifier resolves, `batch_log_work_func` runs
every item exactly once in input order, a failed item does not prevent the
next one's attempt, and the report is the newline-joined sequence of
exactly one entry per item, each a success (`✅`) or failure (`❌`)
message; the external writes issued are the items' write traces
concatenated in order. -/
theorem C6_batch_isolation (env : Env) (tool_input : BatchLogWorkInput) (pk : String)
    (hproj : validate_project_access env.projects tool_input.project_identifier =
      (some pk, none))
    (hne : tool_input.work_logs ≠ []) :
    batch_log_work_func env tool_input =
      (String.intercalate "\n"
          (tool_input.work_logs.map (fun it => (processLogItem env pk it).1)),
        (tool_input.work_logs.map (fun it => (processLogItem env pk it).2)).flatten) ∧
    (tool_input.work_logs.map (fun it => (processLogItem env pk it).1)).length =
      tool_input.work_logs.length ∧
    (∀ it ∈ tool_input.work_logs,
      (∃ m, (processLogItem env pk it).1 = "✅ Sucesso: " ++ m) ∨
      (∃ m, (processLogItem env pk it).1 =
        "❌ Falha na task '" ++ it.issue_identifier ++ "': " ++ m) ∨
      (∃ m, (processLogItem env pk it).1 = "❌ Falha: " ++ m)) := by
  refine ⟨?_, List.length_map _ _, ?_⟩
  · simp only [batch_log_work_func, hproj]
    rw [if_neg (by simpa [List.isEmpty_iff] using hne)]
    simp only [pyStrOfOpt]
    rw [batchLogLoop_eq]
    simp
  · intro it _
    rcases hres : (resolve_issue_identifier env.searchIssues pk it.issue_identifier).1
      with ⟨o, e⟩
    cases e with
    | some msg =>
      right; left
      exact ⟨msg, by simp [processLogItem, hres]⟩
    | none =>
      rcases hb : (log_work_for_issue env.parse env.addWorklog (pyStrOfOpt o)
          it.time_spent it.work_start_date it.work_description).1.1 with _ | _
      · right; right
        refine ⟨(log_work_for_issue env.parse env.addWorklog (pyStrOfOpt o)
          it.time_spent it.work_start_date it.work_description).1.2, ?_⟩
        simp [processLogItem, hres, hb]
      · left
        refine ⟨(log_work_for_issue env.parse env.addWorklog (pyStrOfOpt o)
          it.time_spent it.work_start_date it.work_description).1.2, ?_⟩
        simp [processLogItem, hres, hb]

/-- C6 witness: the theorem applied to a two-item batch under `envA` in
which the first item succeeds and the second fails on an unparseable date;
both are attempted and reported in order. -/
theorem C6_witness :
    batch_log_work_func envA
        ⟨"PK", [⟨"PK-1", "2h", "hoje", ""⟩, ⟨"PK-2", "1h", "bad", ""⟩]⟩ =
      (String.intercalate "\n"
          (([⟨"PK-1", "2h", "hoje", ""⟩, ⟨"PK-2", "1h", "bad", ""⟩] : List WorkLogItem).map
            (fun it => (processLogItem envA "PK" it).1)),
        (([⟨"PK-1", "2h", "hoje", ""⟩, ⟨"PK-2", "1h", "bad", ""⟩] : List WorkLogItem).map
            (fun it => (processLogItem envA "PK" it).2)).flatten) ∧
    (([⟨"PK-1", "2h", "hoje", ""⟩, ⟨"PK-2", "1h", "bad", ""⟩] : List WorkLogItem).map
        (fun it => (processLogItem envA "PK" it).1)).length =
      ([⟨"PK-1", "2h", "hoje", ""⟩, ⟨"PK-2", "1h", "bad", ""⟩] : List WorkLogItem).length ∧
    (∀ it ∈ ([⟨"PK-1", "2h", "hoje", ""⟩, ⟨"PK-2", "1h", "bad", ""⟩] : List WorkLogItem),
      (∃ m, (processLogItem envA "PK" it).1 = "✅ Sucesso: " ++ m) ∨
      (∃ m, (processLogItem envA "PK" it).1 =
        "❌ Falha na task '" ++ it.issue_identifier ++ "': " ++ m) ∨
      (∃ m, (processLogItem envA "PK" it).1 = "❌ Falha: " ++ m)) :=
  C6_batch_isolation envA ⟨"PK", [⟨"PK-1", "2h", "hoje", ""⟩, ⟨"PK-2", "1h", "bad", ""⟩]⟩
    "PK" (by decide) (by decide)

/-- C2: evaluation at the failing input.  Under `envA` every creation
succeeds (`createIssue` returns the new key `PK-9`), yet an item carrying
`time_spent = "2h"` and `work_start_date = "2024-01-01"` is reported as the
full failure `❌ Falha ao criar issue …` — caused by the undefined
`utils.is_valid_date` — although its `create_issue` call was issued and
succeeded (the trace holds the created issue's fields); the claim's
partial-success warning (`⚠️ Alerta: …`) is never produced. -/
theorem C2_full_failure_despite_created_issue :
    envA.createIssue ⟨"PK", "Tarefa", "desc", "Task", none⟩ = .ok "PK-9" ∧
    batch_create_issues_func envA
        [⟨"PK", "Tarefa", "desc", "Task", "", "2h", "2024-01-01"⟩] =
      ("❌ Falha ao criar issue 'Tarefa': module 'src.utils' has no attribute 'is_valid_date'",
       [⟨"PK", "Tarefa", "desc", "Task", none⟩]) := by
  decide
